import Mathlib

/-!
Shallow embedding of `jaraco/classes/properties.py`.

The module defines two descriptors:

* `NonDataProperty` — a descriptor implementing only `__get__` (lines 20-69);
* `classproperty` — a class-level property with `__get__`, `__set__`, a
  `setter` chain and a companion metaclass `classproperty.Meta` whose
  `__setattr__` intercepts class-object assignment (lines 72-239).

The embedding has two layers.

The function layer translates the bodies of `NonDataProperty.__init__`,
`NonDataProperty.__get__`, `classproperty.__init__`, `classproperty.__get__`
and `classproperty._ensure_method` directly, with the relevant Python calling
conventions (descriptor binding of `classmethod` and `staticmethod`) made
explicit.

The machine layer embeds the attribute protocol of the host language for one
class and its instances: `type.__setattr__`, `classproperty.Meta.__setattr__`,
`object.__setattr__` (data-descriptor interception), `object.__getattribute__`
(data descriptor before instance dict before non-data descriptor before plain
class value) and class-object attribute reads.  User-supplied getters and
setters follow the conventional pattern of the module docstring: the getter
reads a plain class attribute (`def foo(cls): return cls.val`) or returns a
constant, and the setter stores to a plain class attribute
(`def foo(cls, val): cls.val = val`).
-/

namespace JaracoClasses

/-- Attribute values held by classes and instances in the model. -/
inductive PyVal where
  | pyNone
  | int (n : Int)
  | str (s : String)
deriving DecidableEq

/-- The error kinds the embedded code can surface: `AttributeError` (raised by
`classproperty.__set__` without a setter, and by failed lookups),
`AssertionError` (raised by the `assert` statements of
`NonDataProperty.__init__`) and `TypeError` (raised when a wrapper around a
non-callable object is finally called). -/
inductive PyErr where
  | attributeError
  | assertionError
  | typeError
deriving DecidableEq

/-- An object passed where the source expects a callable: the host language
lets any object through until a runtime check (`callable(fget)`) or an actual
call rejects it. -/
inductive PyCallable (α β : Type) where
  | noneObj
  | fn (f : α → β)
  | notInvocable (v : PyVal)

/-- `NonDataProperty` (properties.py line 20): holds only the getter. -/
structure NonDataProperty (α β : Type) where
  fget : α → β

/-- `NonDataProperty.__init__` (lines 43-46): `assert fget is not None` and
`assert callable(fget)` reject a missing or non-invocable getter immediately
with an `AssertionError`; otherwise the getter is stored. -/
def NonDataProperty.init (fget : PyCallable α β) :
    Except PyErr (NonDataProperty α β) :=
  match fget with
  | .noneObj => .error .assertionError
  | .notInvocable _ => .error .assertionError
  | .fn f => .ok ⟨f⟩

/-- `NonDataProperty.__get__` (lines 62-69): with `obj is None` (access through
the class) the descriptor returns itself; with an instance it returns
`self.fget(obj)`. -/
def NonDataProperty.get (self : NonDataProperty α β) (obj : Option α) :
    NonDataProperty α β ⊕ β :=
  match obj with
  | Option.none => Sum.inl self
  | some o => Sum.inr (self.fget o)

/-- A getter or setter argument to `classproperty`: a bare object, or an object
already wrapped in `classmethod(...)` or `staticmethod(...)`.  A classmethod
payload is called with the owner class as first argument; a staticmethod
payload is called with no extra argument. -/
inductive CPArg (κ β : Type) where
  | bare (a : PyCallable κ β)
  | cmethod (a : PyCallable κ β)
  | smethod (a : PyCallable Unit β)

/-- The result of `classproperty._ensure_method`: always a `classmethod` or
`staticmethod` wrapper (whose payload the wrapper constructor never
validates). -/
inductive CPMethod (κ β : Type) where
  | cmethod (a : PyCallable κ β)
  | smethod (a : PyCallable Unit β)

/-- `classproperty._ensure_method` (lines 226-239):
`needs_method = not isinstance(fn, (classmethod, staticmethod))`, then
`classmethod(fn) if needs_method else fn`.  `classmethod(fn)` accepts any
object, including `None` and non-callables, without complaint. -/
def classproperty.ensureMethod : CPArg κ β → CPMethod κ β
  | .bare a => .cmethod a
  | .cmethod a => .cmethod a
  | .smethod a => .smethod a

/-- `fn.__get__(None, owner)()` for a classmethod or staticmethod wrapper:
bind the payload to the owner class and call it.  A classmethod passes the
owner as first argument; a staticmethod passes nothing.  Calling a wrapper
around `None` or another non-callable raises `TypeError` only here, at call
time. -/
def CPMethod.call : CPMethod κ β → κ → Except PyErr β
  | .cmethod (.fn f), owner => .ok (f owner)
  | .smethod (.fn f), _ => .ok (f ())
  | .cmethod .noneObj, _ => .error .typeError
  | .cmethod (.notInvocable _), _ => .error .typeError
  | .smethod .noneObj, _ => .error .typeError
  | .smethod (.notInvocable _), _ => .error .typeError

/-- `classproperty.__init__` (lines 185-192): the getter is only passed through
`_ensure_method`; no check rejects a missing or non-invocable getter, so
construction always succeeds. -/
def classproperty.initF (fget : CPArg κ β) : Except PyErr (CPMethod κ β) :=
  .ok (classproperty.ensureMethod fget)

/-- `classproperty.__get__` (lines 194-195):
`return self.fget.__get__(None, owner)()`. -/
def classproperty.getF (fget : CPMethod κ β) (owner : κ) : Except PyErr β :=
  fget.call owner

/-! ## The attribute machine

One class, its instances, and the attribute protocol of the host language
restricted to what `properties.py` exercises. -/

/-- An instance is represented by its attribute dictionary. -/
abbrev InstDict := List (String × PyVal)

/-- A user-supplied getter of the conventional shape from the module
docstring: `def foo(cls): return cls.val` reads the plain class attribute
named `slot`, and the `GetOnly` example returns a constant. -/
inductive GetterSpec where
  | readSlot (slot : String)
  | const (v : PyVal)
deriving DecidableEq

/-- A user-supplied setter of the conventional shape from the module
docstring: `def foo(cls, val): cls.val = val` stores the value as the plain
class attribute named `slot` (class-level state shared by all instances). -/
inductive SetterSpec where
  | storeSlot (slot : String)
deriving DecidableEq

/-- A `classproperty` descriptor as it sits in a class dictionary: the
class-bound getter (`fget`, after `_ensure_method`) and the optional
class-bound setter (`fset`). -/
structure classproperty where
  fget : GetterSpec
  fset : Option SetterSpec
deriving DecidableEq

/-- An entry of a class dictionary: a plain value, a `classproperty`
descriptor (a data descriptor: it defines both `__get__` and `__set__`), or a
`NonDataProperty` descriptor (only `__get__`; its getter receives the
instance). -/
inductive Entry where
  | plain (v : PyVal)
  | clsprop (cp : classproperty)
  | nonData (nd : NonDataProperty InstDict PyVal)

/-- `type(obj) is classproperty` (line 181) for a class-dict entry. -/
def Entry.isClassproperty : Entry → Bool
  | .clsprop _ => true
  | _ => false

/-- The one class of the machine: whether it was built with
`metaclass=classproperty.Meta`, and its class dictionary. -/
structure PyClass where
  usesMeta : Bool
  dict : List (String × Entry)

/-- The machine state: the class object and the dictionaries of its live
instances (instance `i` is `insts[i]`). -/
structure PyState where
  cls : PyClass
  insts : List InstDict

/-- Dictionary lookup (`d.get(key, None)` semantics). -/
def dictLookup : List (String × α) → String → Option α
  | [], _ => Option.none
  | (k0, v0) :: rest, k => if k0 = k then some v0 else dictLookup rest k

/-- Dictionary store (`d[key] = value` semantics): replaces an existing
binding, otherwise appends. -/
def dictInsert : List (String × α) → String → α → List (String × α)
  | [], k, v => [(k, v)]
  | (k0, v0) :: rest, k, v =>
    if k0 = k then (k, v) :: rest else (k0, v0) :: dictInsert rest k v

/-- The value of a plain (non-descriptor) class attribute, if any. -/
def PyClass.plainSlot (X : PyClass) (slot : String) : Option PyVal :=
  match dictLookup X.dict slot with
  | some (.plain v) => some v
  | _ => Option.none

/-- Run a conventional getter against the owning class: `cls.val` reads the
plain class attribute `val` (raising `AttributeError` when absent; the
conventional slot is a plain attribute, as `val = None` in the docstring). -/
def GetterSpec.run : GetterSpec → PyClass → Except PyErr PyVal
  | .const v, _ => .ok v
  | .readSlot slot, X =>
    match X.plainSlot slot with
    | some v => .ok v
    | Option.none => .error .attributeError

/-- Run a conventional setter against the owning class: `cls.val = value`
stores into the plain class attribute `val` (the conventional slot is a plain
attribute, so the metaclass hook, if any, passes the store through). -/
def SetterSpec.run : SetterSpec → PyClass → PyVal → PyClass
  | .storeSlot slot, X, v => { X with dict := dictInsert X.dict slot (.plain v) }

/-- `classproperty.__get__` (lines 194-195) in the machine: the instance
argument is ignored and the class-bound getter runs against the owner class. -/
def classproperty.get (cp : classproperty) (owner : PyClass) :
    Except PyErr PyVal :=
  cp.fget.run owner

/-- The `owner` argument of `classproperty.__set__`: the class object itself
(when called from `classproperty.Meta.__setattr__`) or an instance (when
called from `object.__setattr__`). -/
inductive Owner where
  | clsObj
  | instObj (i : Nat)

/-- `classproperty.__set__` (lines 197-202): without a setter, raise
`AttributeError`; otherwise `if type(owner) is not classproperty.Meta:
owner = type(owner)` — the type of an instance is the class, and a class
owner (whose type is the metaclass) is kept — and the class-bound setter runs
on the resolved class with the new value. -/
def classproperty.set (cp : classproperty) (st : PyState) (owner : Owner)
    (v : PyVal) : Except PyErr PyState :=
  match cp.fset with
  | Option.none => .error .attributeError
  | some fs =>
    let ownerCls : PyClass :=
      match owner with
      | .clsObj => st.cls
      | .instObj _ => st.cls
    .ok { st with cls := fs.run ownerCls v }

/-- `classproperty.setter` (lines 204-206): attach a (normalized) setter to
the descriptor and return it. -/
def classproperty.setSetter (cp : classproperty) (fs : SetterSpec) :
    classproperty :=
  { cp with fset := some fs }

/-- `type.__setattr__`: a plain class-dictionary store, replacing whatever
entry (descriptor included) was bound to the name. -/
def typeSetattr (X : PyClass) (key : String) (v : PyVal) : PyClass :=
  { X with dict := dictInsert X.dict key (.plain v) }

/-- `classproperty.Meta.__setattr__` (lines 178-183):
`obj = self.__dict__.get(key, None)`; when `type(obj) is classproperty` the
assignment is redirected to `obj.__set__(self, value)`, otherwise
`super().__setattr__(key, value)` runs. -/
def metaSetattr (st : PyState) (key : String) (v : PyVal) :
    Except PyErr PyState :=
  match dictLookup st.cls.dict key with
  | some (.clsprop cp) => cp.set st .clsObj v
  | _ => .ok { st with cls := typeSetattr st.cls key v }

/-- Assignment `X.key = v` on the class object: routed through the metaclass
hook when the class was built with `classproperty.Meta`, else plain
`type.__setattr__`. -/
def classSetattr (st : PyState) (key : String) (v : PyVal) :
    Except PyErr PyState :=
  if st.cls.usesMeta then metaSetattr st key v
  else .ok { st with cls := typeSetattr st.cls key v }

/-- The result of an attribute read on the class object: a value, or the
descriptor object itself (what `NonDataProperty.__get__` returns when `obj`
is `None`). -/
inductive ReadVal where
  | val (v : PyVal)
  | descObj (e : Entry)

/-- Reading `X.key` on the class object: a descriptor entry found in the
class dictionary is invoked through its `__get__` with no instance
(`NonDataProperty` then returns itself, `classproperty` runs its getter on
the class); a plain entry is returned as is. -/
def classGetattr (st : PyState) (key : String) : Except PyErr ReadVal :=
  match dictLookup st.cls.dict key with
  | some (.plain v) => .ok (.val v)
  | some (.clsprop cp) => (cp.get st.cls).map .val
  | some (.nonData nd) =>
    match nd.get Option.none with
    | Sum.inl d => .ok (.descObj (.nonData d))
    | Sum.inr v => .ok (.val v)
  | Option.none => .error .attributeError

/-- `object.__getattribute__` on instance `i`: a data descriptor
(`classproperty` defines `__get__` and `__set__`) found on the class takes
precedence over the instance dictionary; otherwise the instance dictionary
is consulted, then a non-data descriptor (`NonDataProperty.__get__` with the
instance, i.e. `fget(obj)`) or a plain class value. -/
def instGetattr (st : PyState) (i : Nat) (key : String) : Except PyErr PyVal :=
  match dictLookup st.cls.dict key with
  | some (.clsprop cp) => cp.get st.cls
  | e =>
    match st.insts[i]? with
    | Option.none => .error .attributeError
    | some d =>
      match dictLookup d key with
      | some v => .ok v
      | Option.none =>
        match e with
        | some (.plain v) => .ok v
        | some (.nonData nd) => .ok (nd.fget d)
        | _ => .error .attributeError

/-- `object.__setattr__` on instance `i`: a data descriptor found on the
class intercepts the write through its `__set__`; otherwise the value lands
in the instance dictionary. -/
def instSetattr (st : PyState) (i : Nat) (key : String) (v : PyVal) :
    Except PyErr PyState :=
  match dictLookup st.cls.dict key with
  | some (.clsprop cp) => cp.set st (.instObj i) v
  | _ =>
    match st.insts[i]? with
    | Option.none => .error .attributeError
    | some d => .ok { st with insts := st.insts.set i (dictInsert d key v) }

/-- Creating a new instance of the class: a fresh, empty instance
dictionary. -/
def newInst (st : PyState) : PyState :=
  { st with insts := st.insts ++ [[]] }

/-! ## Dictionary and list lemmas -/

theorem dictLookup_dictInsert_self (d : List (String × α)) (k : String) (v : α) :
    dictLookup (dictInsert d k v) k = some v := by
  induction d with
  | nil => simp [dictInsert, dictLookup]
  | cons p rest ih =>
    obtain ⟨k0, v0⟩ := p
    by_cases h : k0 = k
    · simp [dictInsert, h, dictLookup]
    · simp [dictInsert, h, dictLookup, ih]

theorem dictLookup_dictInsert_other (d : List (String × α)) (v : α)
    (h : k ≠ k2) : dictLookup (dictInsert d k v) k2 = dictLookup d k2 := by
  induction d with
  | nil => simp [dictInsert, dictLookup, h]
  | cons p rest ih =>
    obtain ⟨k0, v0⟩ := p
    by_cases h0 : k0 = k
    · subst h0; simp [dictInsert, dictLookup, h]
    · by_cases h2 : k0 = k2 <;>
        simp [dictInsert, h0, dictLookup, h2, ih, Ne.symm h]

theorem listGetElem_set_self (l : List α) (i : Nat) (a b : α)
    (h : l[i]? = some b) : (l.set i a)[i]? = some a := by
  induction l generalizing i with
  | nil => simp at h
  | cons x xs ih =>
    cases i with
    | zero => simp
    | succ n => simpa using ih n (by simpa using h)

theorem listGetElem_set_other (l : List α) (i j : Nat) (a : α) (h : i ≠ j) :
    (l.set i a)[j]? = l[j]? := by
  induction l generalizing i j with
  | nil => rfl
  | cons x xs ih =>
    cases i with
    | zero =>
      cases j with
      | zero => exact absurd rfl h
      | succ m => simp
    | succ n =>
      cases j with
      | zero => simp
      | succ m => simpa using ih n m fun hnm => h (by rw [hnm])

theorem listGetElem_concat_self (l : List α) (a : α) :
    (l ++ [a])[l.length]? = some a := by
  induction l with
  | nil => simp
  | cons x xs ih => simp [ih]

/-! ## Claims -/

/-- Concrete machine for the C1 witness: the docstring class `X` with
`metaclass=classproperty.Meta`, plain attribute `val = None`, the
`classproperty` named `foo` reading and storing `val`, and one live
instance. -/
def mcC1 : PyState :=
  ⟨⟨true, [("val", .plain .pyNone),
           ("foo", .clsprop ⟨.readSlot "val", some (.storeSlot "val")⟩)]⟩, [[]]⟩

/-- Claim C1: for a class built with the `classproperty` metaclass whose
classproperty has a setter storing on the class, writing any value `V` to the
attribute via the class object and then reading the attribute via any
instance (existing — any index `i` — or newly created) returns `V`: all
instances observe the same class-level state. -/
theorem C1_meta_class_write_read_any_instance
    (st : PyState) (key s : String) (V : PyVal) (i : Nat)
    (hm : st.cls.usesMeta = true)
    (hk : dictLookup st.cls.dict key =
      some (.clsprop ⟨.readSlot s, some (.storeSlot s)⟩))
    (hs : s ≠ key) :
    Except.bind (classSetattr st key V) (fun st2 => instGetattr st2 i key) =
      .ok V ∧
    Except.bind (classSetattr st key V)
        (fun st2 => instGetattr (newInst st2) i key) = .ok V := by
  have hset : classSetattr st key V =
      .ok { st with
        cls := { st.cls with dict := dictInsert st.cls.dict s (.plain V) } } := by
    simp [classSetattr, hm, metaSetattr, hk, classproperty.set, SetterSpec.run]
  have hget : ∀ st2 : PyState,
      st2.cls.dict = dictInsert st.cls.dict s (.plain V) →
      instGetattr st2 i key = .ok V := by
    intro st2 h2
    simp [instGetattr, h2, dictLookup_dictInsert_other _ _ hs, hk,
      classproperty.get, GetterSpec.run, PyClass.plainSlot,
      dictLookup_dictInsert_self]
  rw [hset]
  exact ⟨hget _ rfl, hget _ rfl⟩

/-- Witness for C1: on the concrete docstring machine, writing `3` to `foo`
through the class and reading `foo` back through instance `0` yields `3`. -/
theorem C1_meta_class_write_read_any_instance_witness :
    mcC1.cls.usesMeta = true ∧
    dictLookup mcC1.cls.dict "foo" =
      some (.clsprop ⟨.readSlot "val", some (.storeSlot "val")⟩) ∧
    Except.bind (classSetattr mcC1 "foo" (.int 3))
      (fun st2 => instGetattr st2 0 "foo") = .ok (.int 3) :=
  ⟨rfl, rfl,
    (C1_meta_class_write_read_any_instance mcC1 "foo" "val" (.int 3) 0 rfl rfl
      (by decide)).1⟩

/-- Claim C5: `NonDataProperty.__get__` invokes `fget` on the instance when
the attribute is read through an instance, and returns the descriptor object
itself when read through the class (no instance). -/
theorem C5_nondata_get_instance_vs_class
    (ndp : NonDataProperty α β) (o : α) :
    ndp.get (some o) = Sum.inr (ndp.fget o) ∧
    ndp.get Option.none = Sum.inl ndp :=
  ⟨rfl, rfl⟩

/-- Concrete machine for the C7 witness: the instance dictionary already
holds a stored value `99` under the property name, which the read ignores in
favour of the class-bound getter. -/
def mcC7 : PyState :=
  ⟨⟨true, [("val", .plain (.int 7)),
           ("foo", .clsprop ⟨.readSlot "val", some (.storeSlot "val")⟩)]⟩,
   [[("foo", .int 99)]]⟩

/-- Claim C7: while a `classproperty` descriptor is in the class dictionary,
reading the attribute — from the class or from any instance, whatever values
the instance dictionaries hold — resolves by running the getter bound to the
class; an instance-level stored value never overrides the computed read. -/
theorem C7_read_always_runs_getter
    (st : PyState) (key : String) (cp : classproperty)
    (hk : dictLookup st.cls.dict key = some (.clsprop cp)) :
    (∀ i, instGetattr st i key = cp.get st.cls) ∧
    classGetattr st key = (cp.get st.cls).map ReadVal.val := by
  constructor
  · intro i
    simp [instGetattr, hk]
  · simp [classGetattr, hk]

/-- Witness for C7: instance `0` of the concrete machine stores `99` for
`foo` in its own dictionary, yet reading `foo` runs the class-bound getter
and returns the class-level `7`. -/
theorem C7_read_always_runs_getter_witness :
    dictLookup mcC7.cls.dict "foo" =
      some (.clsprop ⟨.readSlot "val", some (.storeSlot "val")⟩) ∧
    mcC7.insts[0]? = some [("foo", .int 99)] ∧
    instGetattr mcC7 0 "foo" =
      classproperty.get ⟨.readSlot "val", some (.storeSlot "val")⟩ mcC7.cls ∧
    instGetattr mcC7 0 "foo" = .ok (.int 7) :=
  ⟨rfl, rfl,
    (C7_read_always_runs_getter mcC7 "foo"
      ⟨.readSlot "val", some (.storeSlot "val")⟩ rfl).1 0, rfl⟩

/-- Concrete machine for the C8 witness: one plain entry `val` and one
`classproperty` entry `foo`, under the metaclass. -/
def mcC8 : PyState :=
  ⟨⟨true, [("val", .plain .pyNone),
           ("foo", .clsprop ⟨.readSlot "val", some (.storeSlot "val")⟩)]⟩, []⟩

/-- Claim C8: under `classproperty.Meta`, assignment on the class object to a
name whose class-dict entry is not a `classproperty` (or is absent) passes
through unchanged to the normal machinery (`type.__setattr__`); only a name
held by a `classproperty` is redirected into the descriptor write path
`__set__`. -/
theorem C8_meta_setattr_passthrough
    (st : PyState) (key : String) (v : PyVal)
    (hm : st.cls.usesMeta = true) :
    (∀ e, dictLookup st.cls.dict key = some e → e.isClassproperty = false →
      classSetattr st key v = .ok { st with cls := typeSetattr st.cls key v }) ∧
    (dictLookup st.cls.dict key = Option.none →
      classSetattr st key v = .ok { st with cls := typeSetattr st.cls key v }) ∧
    (∀ cp, dictLookup st.cls.dict key = some (.clsprop cp) →
      classSetattr st key v = cp.set st .clsObj v) := by
  refine ⟨?_, ?_, ?_⟩
  · intro e he hne
    cases e with
    | plain w => simp [classSetattr, hm, metaSetattr, he]
    | clsprop cp => simp [Entry.isClassproperty] at hne
    | nonData nd => simp [classSetattr, hm, metaSetattr, he]
  · intro he
    simp [classSetattr, hm, metaSetattr, he]
  · intro cp he
    simp [classSetattr, hm, metaSetattr, he]

/-- Witness for C8: on the concrete machine, assigning to the plain name
`val` passes through to `type.__setattr__` while assigning to the
`classproperty` name `foo` is redirected to `classproperty.__set__`. -/
theorem C8_meta_setattr_passthrough_witness :
    mcC8.cls.usesMeta = true ∧
    classSetattr mcC8 "val" (.int 1) =
      .ok { mcC8 with cls := typeSetattr mcC8.cls "val" (.int 1) } ∧
    classSetattr mcC8 "foo" (.int 1) =
      classproperty.set ⟨.readSlot "val", some (.storeSlot "val")⟩ mcC8
        .clsObj (.int 1) :=
  ⟨rfl,
   (C8_meta_setattr_passthrough mcC8 "val" (.int 1) rfl).1 (.plain .pyNone)
     rfl rfl,
   (C8_meta_setattr_passthrough mcC8 "foo" (.int 1) rfl).2.2
     ⟨.readSlot "val", some (.storeSlot "val")⟩ rfl⟩

/-- Claim C9: for a zero-extra-argument getter, a `classproperty` built from
an already `classmethod`-wrapped or `staticmethod`-wrapped getter reads the
same, from the class or any instance (any `owner`), as one built from the
equivalent plain function: the `_ensure_method` normalization of a bare
function is observationally equivalent to passing the pre-bound form. -/
theorem C9_wrapped_getter_equivalent
    (g : κ → β) (s : Unit → β) (owner : κ) :
    classproperty.getF (classproperty.ensureMethod (.cmethod (.fn g))) owner =
      classproperty.getF (classproperty.ensureMethod (.bare (.fn g))) owner ∧
    classproperty.getF (classproperty.ensureMethod (.smethod (.fn s))) owner =
      classproperty.getF
        (classproperty.ensureMethod (.bare (.fn fun _ => s ()))) owner :=
  ⟨rfl, rfl⟩

/-- Concrete machine for the C10 witness: a class NOT built with the
metaclass, the descriptor still in place, and two live instances. -/
def mcC10 : PyState :=
  ⟨⟨false, [("val", .plain .pyNone),
            ("foo", .clsprop ⟨.readSlot "val", some (.storeSlot "val")⟩)]⟩,
   [[], []]⟩

/-- Claim C10: while the `classproperty` descriptor is in the class dict
(metaclass or not), an instance-level assignment reaches `__set__`, which
resolves the owning class as the type of the instance and runs the setter on
that class: the write mutates class-level state, leaves every instance
dictionary untouched (no per-instance storage), and every instance
subsequently reads the written value. -/
theorem C10_instance_write_mutates_class_state
    (st : PyState) (key s : String) (i : Nat) (V : PyVal)
    (hk : dictLookup st.cls.dict key =
      some (.clsprop ⟨.readSlot s, some (.storeSlot s)⟩))
    (hs : s ≠ key) :
    instSetattr st i key V =
      .ok { st with cls := SetterSpec.run (.storeSlot s) st.cls V } ∧
    (∀ st2, instSetattr st i key V = .ok st2 →
      st2.insts = st.insts ∧ ∀ j, instGetattr st2 j key = .ok V) := by
  have h1 : instSetattr st i key V =
      .ok { st with cls := SetterSpec.run (.storeSlot s) st.cls V } := by
    simp [instSetattr, hk, classproperty.set]
  refine ⟨h1, ?_⟩
  intro st2 h2
  rw [h1] at h2
  injection h2 with h3
  subst h3
  refine ⟨rfl, ?_⟩
  intro j
  simp [instGetattr, SetterSpec.run, dictLookup_dictInsert_other _ _ hs, hk,
    classproperty.get, GetterSpec.run, PyClass.plainSlot,
    dictLookup_dictInsert_self]

/-- Witness for C10: on the concrete metaclass-free machine, writing `5` to
`foo` on instance `0` leaves both instance dictionaries empty and makes
instance `1` read `5`. -/
theorem C10_instance_write_mutates_class_state_witness :
    mcC10.cls.usesMeta = false ∧
    dictLookup mcC10.cls.dict "foo" =
      some (.clsprop ⟨.readSlot "val", some (.storeSlot "val")⟩) ∧
    instSetattr mcC10 0 "foo" (.int 5) =
      .ok { mcC10 with
        cls := SetterSpec.run (.storeSlot "val") mcC10.cls (.int 5) } ∧
    ({ mcC10 with
        cls := SetterSpec.run (.storeSlot "val") mcC10.cls (.int 5) } :
      PyState).insts = mcC10.insts ∧
    instGetattr { mcC10 with
        cls := SetterSpec.run (.storeSlot "val") mcC10.cls (.int 5) } 1 "foo" =
      .ok (.int 5) :=
  ⟨rfl, rfl,
   (C10_instance_write_mutates_class_state mcC10 "foo" "val" 0 (.int 5) rfl
     (by decide)).1,
   ((C10_instance_write_mutates_class_state mcC10 "foo" "val" 0 (.int 5) rfl
     (by decide)).2 _
     (C10_instance_write_mutates_class_state mcC10 "foo" "val" 0 (.int 5) rfl
       (by decide)).1).1,
   ((C10_instance_write_mutates_class_state mcC10 "foo" "val" 0 (.int 5) rfl
     (by decide)).2 _
     (C10_instance_write_mutates_class_state mcC10 "foo" "val" 0 (.int 5) rfl
       (by decide)).1).2 1⟩

/-- Concrete machine for the C6 witness: a class holding only the
`NonDataProperty` `foo` whose getter computes `3`, with one live instance. -/
def mcC6 : PyState :=
  ⟨⟨false, [("foo", .nonData ⟨fun _ => .int 3⟩)]⟩, [[]]⟩

/-- The C6 witness machine after writing `4` to `foo` on instance `0`. -/
def mcC6a : PyState :=
  ⟨⟨false, [("foo", .nonData ⟨fun _ => .int 3⟩)]⟩, [[("foo", .int 4)]]⟩

/-- Claim C6: for a `NonDataProperty` with a pure getter, a read on an
instance holding no stored value for the name returns the getter's computed
value; a direct write of `V` to that instance lands in its instance
dictionary, after which reads on that instance return `V`, while a read on a
freshly created instance still invokes the getter and returns its computed
value. -/
theorem C6_nondata_write_shadows_getter
    (st : PyState) (key : String) (nd : NonDataProperty InstDict PyVal)
    (i : Nat) (d : InstDict) (V : PyVal)
    (hk : dictLookup st.cls.dict key = some (.nonData nd))
    (hi : st.insts[i]? = some d)
    (hd : dictLookup d key = Option.none) :
    instGetattr st i key = .ok (nd.fget d) ∧
    (∀ st2, instSetattr st i key V = .ok st2 →
      instGetattr st2 i key = .ok V ∧
      instGetattr (newInst st2) st2.insts.length key = .ok (nd.fget [])) ∧
    instSetattr st i key V =
      .ok { st with insts := st.insts.set i (dictInsert d key V) } := by
  have hset : instSetattr st i key V =
      .ok { st with insts := st.insts.set i (dictInsert d key V) } := by
    simp [instSetattr, hk, hi]
  refine ⟨?_, ?_, hset⟩
  · simp [instGetattr, hk, hi, hd]
  · intro st2 h2
    rw [hset] at h2
    injection h2 with h3
    subst h3
    constructor
    · simp [instGetattr, hk, listGetElem_set_self _ _ _ _ hi,
        dictLookup_dictInsert_self]
    · simp [instGetattr, newInst, hk, listGetElem_concat_self, dictLookup]

/-- Witness for C6: on the concrete machine, instance `0` reads the computed
`3`; after writing `4` it reads the stored `4` from its own dictionary, and a
fresh instance still reads the computed `3`. -/
theorem C6_nondata_write_shadows_getter_witness :
    dictLookup mcC6.cls.dict "foo" = some (.nonData ⟨fun _ => .int 3⟩) ∧
    mcC6.insts[0]? = some [] ∧
    instGetattr mcC6 0 "foo" = .ok (.int 3) ∧
    instSetattr mcC6 0 "foo" (.int 4) = .ok mcC6a ∧
    instGetattr mcC6a 0 "foo" = .ok (.int 4) ∧
    instGetattr (newInst mcC6a) 1 "foo" = .ok (.int 3) :=
  ⟨rfl, rfl,
   (C6_nondata_write_shadows_getter mcC6 "foo" ⟨fun _ => .int 3⟩ 0 []
     (.int 4) rfl rfl rfl).1,
   (C6_nondata_write_shadows_getter mcC6 "foo" ⟨fun _ => .int 3⟩ 0 []
     (.int 4) rfl rfl rfl).2.2,
   ((C6_nondata_write_shadows_getter mcC6 "foo" ⟨fun _ => .int 3⟩ 0 []
     (.int 4) rfl rfl rfl).2.1 mcC6a
     (C6_nondata_write_shadows_getter mcC6 "foo" ⟨fun _ => .int 3⟩ 0 []
       (.int 4) rfl rfl rfl).2.2).1,
   ((C6_nondata_write_shadows_getter mcC6 "foo" ⟨fun _ => .int 3⟩ 0 []
     (.int 4) rfl rfl rfl).2.1 mcC6a
     (C6_nondata_write_shadows_getter mcC6 "foo" ⟨fun _ => .int 3⟩ 0 []
       (.int 4) rfl rfl rfl).2.2).2⟩

/-- Concrete machine for claim C2: a class NOT built with the metaclass, the
`classproperty` descriptor still in its class dictionary, and two live
instances. -/
def mcC2 : PyState :=
  ⟨⟨false, [("val", .plain .pyNone),
            ("foo", .clsprop ⟨.readSlot "val", some (.storeSlot "val")⟩)]⟩,
   [[], []]⟩

/-- The C2 machine after the class-object write `X.foo = 3` (which, without
the metaclass, replaces the descriptor entry by a plain value). -/
def mcC2a : PyState :=
  ⟨⟨false, [("val", .plain .pyNone), ("foo", .plain (.int 3))]⟩, [[], []]⟩

/-- The C2 machine after additionally writing `5` to `foo` on instance `0`. -/
def mcC2b : PyState :=
  ⟨⟨false, [("val", .plain .pyNone), ("foo", .plain (.int 3))]⟩,
   [[("foo", .int 5)], []]⟩

/-- Counterexample to claim C2 as stated: on a class NOT built with the
metaclass, while the `classproperty` descriptor (a data descriptor) is still
in the class dictionary, writing `5` to `foo` on instance `0` is intercepted
by `__set__` and runs the setter on the class — so instance `1`, which read
`None` before, reads `5` afterwards, and the class's own attribute value
changes as well, contradicting the claimed unchanged reads. -/
theorem C2_counterexample :
    mcC2.cls.usesMeta = false ∧
    instGetattr mcC2 1 "foo" = .ok .pyNone ∧
    classGetattr mcC2 "foo" = .ok (.val .pyNone) ∧
    Except.bind (instSetattr mcC2 0 "foo" (.int 5))
      (fun st2 => instGetattr st2 1 "foo") = .ok (.int 5) ∧
    Except.bind (instSetattr mcC2 0 "foo" (.int 5))
      (fun st2 => classGetattr st2 "foo") = .ok (.val (.int 5)) :=
  ⟨rfl, rfl, rfl, rfl, rfl⟩

/-- Claim C2 amended: for a class NOT built with the metaclass, once a
class-object assignment has run (plain `type.__setattr__`, which replaces the
descriptor entry by the assigned value), writing `V` directly to an instance
stores it in that instance's own dictionary: that instance subsequently reads
`V`, while the class's own attribute value and every other instance's read
remain unchanged. -/
theorem C2_legacy_instance_write_is_per_instance
    (st : PyState) (key : String) (i j : Nat) (V W : PyVal) (d : InstDict)
    (hm : st.cls.usesMeta = false)
    (hij : i ≠ j)
    (hi : st.insts[i]? = some d) :
    ∀ st1, classSetattr st key W = .ok st1 →
      instSetattr st1 i key V =
        .ok { st1 with insts := st1.insts.set i (dictInsert d key V) } ∧
      (∀ st2, instSetattr st1 i key V = .ok st2 →
        instGetattr st2 i key = .ok V ∧
        instGetattr st2 j key = instGetattr st1 j key ∧
        classGetattr st2 key = classGetattr st1 key) := by
  intro st1 h1
  simp only [classSetattr, hm, Bool.false_eq_true, if_false] at h1
  injection h1 with h1
  subst h1
  have hlook : dictLookup (typeSetattr st.cls key W).dict key =
      some (.plain W) := dictLookup_dictInsert_self _ _ _
  have hset : instSetattr { st with cls := typeSetattr st.cls key W } i key V =
      .ok { st with
              cls := typeSetattr st.cls key W
              insts := st.insts.set i (dictInsert d key V) } := by
    simp [instSetattr, hlook, hi]
  refine ⟨hset, ?_⟩
  intro st2 h2
  rw [hset] at h2
  injection h2 with h2
  subst h2
  refine ⟨?_, ?_, rfl⟩
  · simp [instGetattr, hlook, listGetElem_set_self _ _ _ _ hi,
      dictLookup_dictInsert_self]
  · simp [instGetattr, hlook, listGetElem_set_other _ i j _ hij]

/-- Witness for the amended C2 on the concrete machine: after `X.foo = 3`
replaces the descriptor, writing `5` to instance `0` leaves instance `1` and
the class value reading `3`. -/
theorem C2_legacy_instance_write_is_per_instance_witness :
    mcC2.cls.usesMeta = false ∧
    classSetattr mcC2 "foo" (.int 3) = .ok mcC2a ∧
    instSetattr mcC2a 0 "foo" (.int 5) = .ok mcC2b ∧
    instGetattr mcC2b 0 "foo" = .ok (.int 5) ∧
    instGetattr mcC2b 1 "foo" = instGetattr mcC2a 1 "foo" ∧
    classGetattr mcC2b "foo" = classGetattr mcC2a "foo" :=
  ⟨rfl, rfl,
   (C2_legacy_instance_write_is_per_instance mcC2 "foo" 0 1 (.int 5) (.int 3)
     [] rfl (by decide) rfl mcC2a rfl).1,
   ((C2_legacy_instance_write_is_per_instance mcC2 "foo" 0 1 (.int 5) (.int 3)
     [] rfl (by decide) rfl mcC2a rfl).2 mcC2b
     (C2_legacy_instance_write_is_per_instance mcC2 "foo" 0 1 (.int 5)
       (.int 3) [] rfl (by decide) rfl mcC2a rfl).1).1,
   ((C2_legacy_instance_write_is_per_instance mcC2 "foo" 0 1 (.int 5) (.int 3)
     [] rfl (by decide) rfl mcC2a rfl).2 mcC2b
     (C2_legacy_instance_write_is_per_instance mcC2 "foo" 0 1 (.int 5)
       (.int 3) [] rfl (by decide) rfl mcC2a rfl).1).2.1,
   ((C2_legacy_instance_write_is_per_instance mcC2 "foo" 0 1 (.int 5) (.int 3)
     [] rfl (by decide) rfl mcC2a rfl).2 mcC2b
     (C2_legacy_instance_write_is_per_instance mcC2 "foo" 0 1 (.int 5)
       (.int 3) [] rfl (by decide) rfl mcC2a rfl).1).2.2⟩

/-- Concrete machine for the C3 counterexample: the `GetOnly` class of the
docstring (getter-only `classproperty`) but built WITHOUT the metaclass. -/
def mcC3 : PyState :=
  ⟨⟨false, [("foo", .clsprop ⟨.const (.str "bar"), Option.none⟩)]⟩, [[]]⟩

/-- Concrete machine for the amended C3 witness: the `GetOnly` class of the
docstring, built with the metaclass. -/
def mcC3w : PyState :=
  ⟨⟨true, [("foo", .clsprop ⟨.const (.str "bar"), Option.none⟩)]⟩, [[]]⟩

/-- Counterexample to claim C3 as stated: with a getter-only `classproperty`
on a class NOT built with the metaclass, a class-object write does not fail
at all: plain `type.__setattr__` silently replaces the descriptor with the
assigned value. -/
theorem C3_counterexample :
    mcC3.cls.dict =
      [("foo", .clsprop ⟨.const (.str "bar"), Option.none⟩)] ∧
    classSetattr mcC3 "foo" (.int 3) =
      .ok ⟨⟨false, [("foo", .plain (.int 3))]⟩, [[]]⟩ :=
  ⟨rfl, rfl⟩

/-- Claim C3 amended: for a getter-only `classproperty` (no setter), every
write that reaches the descriptor fails with the same `AttributeError`:
every instance write (the descriptor is a data descriptor, so instance
assignment always reaches `__set__`), and every class-object write when the
class is built with `classproperty.Meta`; without the metaclass, a
class-object write bypasses the descriptor and replaces it instead of
failing. -/
theorem C3_getter_only_write_fails
    (st : PyState) (key : String) (g : GetterSpec)
    (hk : dictLookup st.cls.dict key = some (.clsprop ⟨g, Option.none⟩)) :
    (∀ i V, instSetattr st i key V = .error .attributeError) ∧
    (st.cls.usesMeta = true →
      ∀ V, classSetattr st key V = .error .attributeError) := by
  constructor
  · intro i V
    simp [instSetattr, hk, classproperty.set]
  · intro hm V
    simp [classSetattr, hm, metaSetattr, hk, classproperty.set]

/-- Witness for the amended C3 on the concrete metaclass-built `GetOnly`
machine: both the instance write and the class-object write fail with
`AttributeError`. -/
theorem C3_getter_only_write_fails_witness :
    dictLookup mcC3w.cls.dict "foo" =
      some (.clsprop ⟨.const (.str "bar"), Option.none⟩) ∧
    instSetattr mcC3w 0 "foo" (.int 3) = .error .attributeError ∧
    classSetattr mcC3w "foo" (.int 3) = .error .attributeError :=
  ⟨rfl,
   (C3_getter_only_write_fails mcC3w "foo" (.const (.str "bar")) rfl).1 0
     (.int 3),
   (C3_getter_only_write_fails mcC3w "foo" (.const (.str "bar")) rfl).2 rfl
     (.int 3)⟩

/-- Counterexample to claim C4 as stated: `classproperty` does not reject a
missing (`None`) getter at construction time: `__init__` only passes it
through `_ensure_method`, and `classmethod(None)` succeeds; the failure
surfaces only later, when a read finally calls the wrapper. -/
theorem C4_counterexample :
    classproperty.initF (κ := Unit) (β := PyVal) (.bare .noneObj) =
      .ok (.cmethod .noneObj) ∧
    classproperty.getF (κ := Unit) (β := PyVal) (.cmethod .noneObj) () =
      .error .typeError :=
  ⟨rfl, rfl⟩

/-- Claim C4 amended: `NonDataProperty` rejects a missing or non-invocable
getter immediately at construction, and these are its only construction-time
failures; `classproperty`, by contrast, performs no construction-time
validation at all: its construction succeeds for every getter argument,
missing or non-invocable included, deferring any failure to read time. -/
theorem C4_construction_checks (α β κ : Type) :
    NonDataProperty.init (α := α) (β := β) .noneObj = .error .assertionError ∧
    (∀ v, NonDataProperty.init (α := α) (β := β) (.notInvocable v) =
      .error .assertionError) ∧
    (∀ f : α → β, NonDataProperty.init (.fn f) = .ok ⟨f⟩) ∧
    (∀ a : CPArg κ β, classproperty.initF a =
      .ok (classproperty.ensureMethod a)) :=
  ⟨rfl, fun _ => rfl, fun _ => rfl, fun _ => rfl⟩

/-- Witness for the amended C4 at concrete types and arguments. -/
theorem C4_construction_checks_witness :
    NonDataProperty.init (α := Unit) (β := PyVal) .noneObj =
      .error .assertionError ∧
    classproperty.initF (κ := Unit) (β := PyVal)
      (.bare (.notInvocable (.int 7))) =
      .ok (.cmethod (.notInvocable (.int 7))) :=
  ⟨(C4_construction_checks Unit PyVal Unit).1,
   (C4_construction_checks Unit PyVal Unit).2.2.2 _⟩

/-- Witness for C5 at a concrete descriptor. -/
theorem C5_nondata_get_instance_vs_class_witness :
    NonDataProperty.get ⟨fun _ => PyVal.int 3⟩ (some ()) =
      Sum.inr (PyVal.int 3) ∧
    NonDataProperty.get (⟨fun _ => PyVal.int 3⟩ :
        NonDataProperty Unit PyVal) Option.none =
      Sum.inl ⟨fun _ => PyVal.int 3⟩ :=
  ⟨(C5_nondata_get_instance_vs_class ⟨fun _ => PyVal.int 3⟩ ()).1,
   (C5_nondata_get_instance_vs_class ⟨fun _ => PyVal.int 3⟩ ()).2⟩

/-- Witness for C9 at concrete getters and owner. -/
theorem C9_wrapped_getter_equivalent_witness :
    classproperty.getF
        (classproperty.ensureMethod (.cmethod (.fn fun _ : Unit => PyVal.int 1)))
        () =
      classproperty.getF
        (classproperty.ensureMethod (.bare (.fn fun _ : Unit => PyVal.int 1)))
        () ∧
    classproperty.getF
        (classproperty.ensureMethod
          (.smethod (κ := Unit) (.fn fun _ => PyVal.int 2))) () =
      classproperty.getF
        (classproperty.ensureMethod
          (.bare (.fn fun _ : Unit => PyVal.int 2))) () :=
  ⟨(C9_wrapped_getter_equivalent (fun _ : Unit => PyVal.int 1)
      (fun _ => PyVal.int 2) ()).1,
   (C9_wrapped_getter_equivalent (fun _ : Unit => PyVal.int 1)
      (fun _ => PyVal.int 2) ()).2⟩

end JaracoClasses
